import Mathlib

/-!
Event callbacks of a managed client (`xclient_event.go`).

A shallow embedding of the per-window event handlers of the window manager:
the unmap/destroy lifecycle handlers, the configure-request arbitrator, the
property-change router and the focus classifiers.

Conventions of the embedding.

* A handler is a function from the client record (and the answers of the
  collaborators it consults) to the updated client record and the list of
  collaborator calls it makes, in program order (its *effect trace*).
* Calls to the logger are not recorded: the logger never influences control
  flow or state.
* Collaborator calls (`unmanage`, `focusFallback`, `refreshName`,
  `LayoutMROpt`, `SendEvent`, ...) are recorded in the trace; the fields of the
  client record are written only by the assignments visible in the handlers.
* Go `int` values are `Int`; conversions to fixed-width protocol fields are
  written out with an explicit modulus.
-/

namespace Wingo

/-! ## Protocol constants (X11 core protocol, package `xproto`) -/

def NotifyModeNormal : Nat := 0
def NotifyModeGrab : Nat := 1
def NotifyModeUngrab : Nat := 2
def NotifyModeWhileGrabbed : Nat := 3

def NotifyDetailAncestor : Nat := 0
def NotifyDetailVirtual : Nat := 1
def NotifyDetailInferior : Nat := 2
def NotifyDetailNonlinear : Nat := 3
def NotifyDetailNonlinearVirtual : Nat := 4
def NotifyDetailPointer : Nat := 5
def NotifyDetailPointerRoot : Nat := 6
def NotifyDetailNone : Nat := 7

def ConfigWindowSibling : Int := 32
def ConfigWindowStackMode : Int := 64

def EventMaskStructureNotify : Nat := 131072

/-! ## Data model -/

/-- Rectangle kept by a window or a frame (`Geom()`), in Go `int`s. -/
structure Rect where
  x : Int
  y : Int
  width : Int
  height : Int
deriving DecidableEq, Repr

/-- The part of the frame the handlers read: the interaction flags
`Moving()`, `Resizing()` and the current geometry `Geom()`. -/
structure Frame where
  moving : Bool
  resizing : Bool
  geom : Rect
deriving DecidableEq, Repr

/-- The fields of `client` that the event handlers read or write.
`H` and `NH` are the types of the values returned by `icccm.WmHintsGet` and
`icccm.WmNormalHintsGet`; `R` is the type of a reference to a managed client
(`*client`), with `none` for the nil reference. -/
structure client (H NH R : Type) where
  id : Nat
  frame : Frame
  winGeom : Rect
  unmapIgnore : Int
  iconified : Bool
  maximized : Bool
  hints : H
  nhints : NH
  transientFor : Option R
  time : Nat
deriving DecidableEq, Repr

/-- The `xproto.ConfigureNotifyEvent` built by `sendConfigureNotify`. -/
structure ConfigureNotifyEvent where
  Event : Nat
  Window : Nat
  AboveSibling : Nat
  X : Int
  Y : Int
  Width : Int
  Height : Int
  BorderWidth : Nat
  OverrideRedirect : Bool
deriving DecidableEq, Repr

/-- The `xevent.ConfigureRequestEvent` fields read by the handler. -/
structure ConfigureRequestEvent where
  ValueMask : Int
  X : Int
  Y : Int
  Width : Int
  Height : Int
deriving DecidableEq, Repr

/-- Collaborator calls made by the handlers, as they appear in a trace. -/
inductive Effect where
  | focusFallback
  | unmanage
  | sendEvent (propagate : Bool) (destination : Nat) (eventMask : Nat)
      (ev : ConfigureNotifyEvent)
  | layoutMROpt (flags x y w h : Int)
  | atomName (atom : Nat)
  | refreshName
  | wmHintsGet (win : Nat)
  | wmNormalHintsGet (win : Nat)
  | wmTransientForGet (win : Nat)
  | findManagedClient (win : Nat)
  | wmUserTimeGet (win : Nat)
  | focused
  | unfocused
deriving DecidableEq, Repr

variable {H NH R : Type}

/-! ## Lifecycle handlers -/

/-- Handler `cbDestroyNotify`: unconditionally calls `unmanage`. -/
def cbDestroyNotify (c : client H NH R) : client H NH R × List Effect :=
  (c, [Effect.unmanage])

/-- The condition `c.iconified && focus.Current().Id() == c.Id()`.
`cur` is the result of `focus.Current()`: the id of the client holding focus,
or `none` for a nil result.  `&&` evaluates its right operand only when the
left one is true; calling `Id()` on a nil result is a run-time fault, which
is the result `none` here. -/
def iconifiedAndFocused (cur : Option Nat) (c : client H NH R) : Option Bool :=
  if c.iconified then
    match cur with
    | none => none
    | some w => some (w == c.id)
  else some false

/-- Handler `cbUnmapNotify`.  The result is `none` when the handler faults. -/
def cbUnmapNotify (cur : Option Nat) (c : client H NH R) :
    Option (client H NH R × List Effect) :=
  match iconifiedAndFocused cur c with
  | none => none
  | some b =>
    let tr : List Effect := if b then [Effect.focusFallback] else []
    if c.unmapIgnore > 0 then
      some ({ c with unmapIgnore := c.unmapIgnore - 1 }, tr)
    else
      some (c, tr ++ [Effect.unmanage])

/-- Modelled from the spec: the window manager's own unmap of the window,
which lives outside this file.  The spec says only that `unmapIgnore` is
"incremented each time the window manager itself unmaps the window". -/
def wmUnmap (c : client H NH R) : client H NH R :=
  { c with unmapIgnore := c.unmapIgnore + 1 }

/-- The unmap of `wmUnmap`, `n` times in a row. -/
def wmUnmaps : Nat → client H NH R → client H NH R
  | 0, c => c
  | n + 1, c => wmUnmaps n (wmUnmap c)

/-- Delivery of one `UnmapNotify` per element of `curs` (the answer of
`focus.Current()` at that delivery), threading the client record and
concatenating the traces.  A fault ends the run. -/
def deliverUnmaps : List (Option Nat) → client H NH R →
    Option (client H NH R × List Effect)
  | [], c => some (c, [])
  | cur :: rest, c =>
    match cbUnmapNotify cur c with
    | none => none
    | some (c1, t1) =>
      match deliverUnmaps rest c1 with
      | none => none
      | some (c2, t2) => some (c2, t1 ++ t2)

/-! ## Configure arbitrator -/

/-- Go conversion `int16(n)` of an `int`: the low 16 bits, read as signed. -/
def toInt16 (n : Int) : Int := (n + 32768) % 65536 - 32768

/-- Go conversion `uint16(n)` of an `int`: the low 16 bits. -/
def toUint16 (n : Int) : Int := n % 65536

/-- The event literal of `sendConfigureNotify`. -/
def configureNotifyOf (c : client H NH R) : ConfigureNotifyEvent :=
  { Event := c.id
    Window := c.id
    AboveSibling := 0
    X := toInt16 c.frame.geom.x
    Y := toInt16 c.frame.geom.y
    Width := toUint16 c.winGeom.width
    Height := toUint16 c.winGeom.height
    BorderWidth := 0
    OverrideRedirect := false }

/-- Method `sendConfigureNotify`: one `xproto.SendEvent` with propagate
`false`, destination `c.Id()` and mask `EventMaskStructureNotify`. -/
def sendConfigureNotify (c : client H NH R) : List Effect :=
  [Effect.sendEvent false c.id EventMaskStructureNotify (configureNotifyOf c)]

/-- The mask computed by `cbConfigureRequest`:
`int(ValueMask) & ^int(ConfigWindowStackMode) & ^int(ConfigWindowSibling)`. -/
def configureFlags (valueMask : Int) : Int :=
  Int.land (Int.land valueMask (Int.lnot ConfigWindowStackMode))
    (Int.lnot ConfigWindowSibling)

/-- Handler `cbConfigureRequest`.  `clientToFrame` is `frame.ClientToFrame`,
which lives in the frame package. -/
def cbConfigureRequest
    (clientToFrame : Frame → Int → Int → Int → Int → Int × Int × Int × Int)
    (ev : ConfigureRequestEvent) (c : client H NH R) :
    client H NH R × List Effect :=
  if c.frame.moving || c.frame.resizing || c.maximized then
    (c, sendConfigureNotify c)
  else
    let flags := configureFlags ev.ValueMask
    let g := clientToFrame c.frame ev.X ev.Y ev.Width ev.Height
    (c, [Effect.layoutMROpt flags g.1 g.2.1 g.2.2.1 g.2.2.2])

/-! ## Property refresh router -/

/-- Answers of the collaborators queried by `cbPropertyNotify`.  A query
result `none` stands for `err != nil`; `atomName` returns the name together
with the error flag, since the handler uses the name whatever the flag;
`findManagedClient` returns `none` for a nil client. -/
structure Collab (H NH R : Type) where
  atomName : Nat → String × Bool
  wmHintsGet : Nat → Option H
  wmNormalHintsGet : Nat → Option NH
  wmTransientForGet : Nat → Option Nat
  findManagedClient : Nat → Option R
  wmUserTimeGet : Nat → Option Nat

/-- Go conversion `xproto.Timestamp(n)` of a `uint`: the low 32 bits. -/
def toTimestamp (n : Nat) : Nat := n % 4294967296

/-- The `switch name` of `cbPropertyNotify`, after the name has been
resolved: the updated client and the calls made by the selected case. -/
def propertySwitch (q : Collab H NH R) (name : String) (c : client H NH R) :
    client H NH R × List Effect :=
  if name = "_NET_WM_VISIBLE_NAME" ∨ name = "_NET_WM_NAME" ∨ name = "WM_NAME" then
    (c, [Effect.refreshName])
  else if name = "_NET_WM_ICON" then
    (c, [])
  else if name = "WM_HINTS" then
    match q.wmHintsGet c.id with
    | some hints => ({ c with hints := hints }, [Effect.wmHintsGet c.id])
    | none => (c, [Effect.wmHintsGet c.id])
  else if name = "WM_NORMAL_HINTS" then
    match q.wmNormalHintsGet c.id with
    | some nhints => ({ c with nhints := nhints }, [Effect.wmNormalHintsGet c.id])
    | none => (c, [Effect.wmNormalHintsGet c.id])
  else if name = "WM_TRANSIENT_FOR" then
    match q.wmTransientForGet c.id with
    | some transWin =>
      match q.findManagedClient transWin with
      | some transCli =>
        ({ c with transientFor := some transCli },
          [Effect.wmTransientForGet c.id, Effect.findManagedClient transWin])
      | none =>
        (c, [Effect.wmTransientForGet c.id, Effect.findManagedClient transWin])
    | none => (c, [Effect.wmTransientForGet c.id])
  else if name = "_NET_WM_USER_TIME" then
    match q.wmUserTimeGet c.id with
    | some newTime =>
      ({ c with time := toTimestamp newTime }, [Effect.wmUserTimeGet c.id])
    | none => (c, [Effect.wmUserTimeGet c.id])
  else if name = "_NET_WM_STRUT_PARTIAL" then
    (c, [])
  else
    (c, [])

/-- Handler `cbPropertyNotify`: resolve the atom with `xprop.AtomName`, then
run the switch on the name. -/
def cbPropertyNotify (q : Collab H NH R) (atom : Nat) (c : client H NH R) :
    client H NH R × List Effect :=
  let name := (q.atomName atom).1
  let r := propertySwitch q name c
  (r.1, Effect.atomName atom :: r.2)

/-! ## Focus classifiers and handlers -/

/-- The map `modes`. -/
def modes : List (Nat × String) :=
  [ (NotifyModeNormal, "NotifyNormal"),
    (NotifyModeGrab, "NotifyGrab"),
    (NotifyModeUngrab, "NotifyUngrab"),
    (NotifyModeWhileGrabbed, "NotifyWhileGrabbed") ]

/-- The map `details`. -/
def details : List (Nat × String) :=
  [ (NotifyDetailAncestor, "NotifyAncestor"),
    (NotifyDetailVirtual, "NotifyVirtual"),
    (NotifyDetailInferior, "NotifyInferior"),
    (NotifyDetailNonlinear, "NotifyNonlinear"),
    (NotifyDetailNonlinearVirtual, "NotifyNonlinearVirtual"),
    (NotifyDetailPointer, "NotifyPointer"),
    (NotifyDetailPointerRoot, "NotifyPointerRoot"),
    (NotifyDetailNone, "NotifyNone") ]

/-- Go map indexing `m[k]`: the value stored at `k`, or the zero value `""`
when the key is absent. -/
def mapIndex (m : List (Nat × String)) (k : Nat) : String :=
  (m.lookup k).getD ""

/-- Function `ignoreFocus`. -/
def ignoreFocus (modeByte detailByte : Nat) : Bool :=
  let mode := mapIndex modes modeByte
  let detail := mapIndex details detailByte
  if mode = "NotifyGrab" ∨ mode = "NotifyUngrab" then true
  else if detail = "NotifyAncestor" ∨ detail = "NotifyInferior" ∨
      detail = "NotifyNonlinear" ∨ detail = "NotifyPointer" ∨
      detail = "NotifyPointerRoot" ∨ detail = "NotifyNone" then true
  else false

/-- Function `ignoreRootFocus`. -/
def ignoreRootFocus (modeByte detailByte : Nat) : Bool :=
  let mode := mapIndex modes modeByte
  let detail := mapIndex details detailByte
  if mode = "NotifyGrab" ∨ mode = "NotifyUngrab" then true
  else if detail = "NotifyAncestor" ∨ detail = "NotifyInferior" ∨
      detail = "NotifyVirtual" ∨ detail = "NotifyNonlinear" ∨
      detail = "NotifyNonlinearVirtual" ∨ detail = "NotifyPointer" then true
  else false

/-- Handler `handleFocusIn`. -/
def handleFocusIn (mode detail : Nat) (c : client H NH R) :
    client H NH R × List Effect :=
  if ignoreFocus mode detail then (c, []) else (c, [Effect.focused])

/-- Handler `handleFocusOut`. -/
def handleFocusOut (mode detail : Nat) (c : client H NH R) :
    client H NH R × List Effect :=
  if ignoreFocus mode detail then (c, []) else (c, [Effect.unfocused])

/-- The four protocol modes. -/
def protocolModes : List Nat :=
  [NotifyModeNormal, NotifyModeGrab, NotifyModeUngrab, NotifyModeWhileGrabbed]

/-- The eight protocol details. -/
def protocolDetails : List Nat :=
  [NotifyDetailAncestor, NotifyDetailVirtual, NotifyDetailInferior,
    NotifyDetailNonlinear, NotifyDetailNonlinearVirtual, NotifyDetailPointer,
    NotifyDetailPointerRoot, NotifyDetailNone]

/-- A concrete client used to instantiate the theorems: id 7, idle frame at
(10, 20) of size 300 x 400 around a window of size 290 x 380, iconified,
with a zero `unmapIgnore`. -/
def sampleClient : client Nat Nat Nat :=
  { id := 7
    frame := { moving := false, resizing := false, geom := ⟨10, 20, 300, 400⟩ }
    winGeom := ⟨5, 15, 290, 380⟩
    unmapIgnore := 0
    iconified := true
    maximized := false
    hints := 0
    nhints := 0
    transientFor := none
    time := 0 }

/-- The sample client while its frame is being moved. -/
def movingClient : client Nat Nat Nat :=
  { sampleClient with frame := { sampleClient.frame with moving := true } }

/-- A configure request asking for position (1, 2) and size 30 x 40, with
the x, y, width, height, sibling and stack-mode bits set (1+2+4+8+32+64). -/
def sampleRequest : ConfigureRequestEvent :=
  { ValueMask := 111, X := 1, Y := 2, Width := 30, Height := 40 }

/-- A stand-in for `frame.ClientToFrame` used at concrete inputs: a frame
with a 3 pixel border on each side and a 20 pixel title bar. -/
def sampleClientToFrame (_ : Frame) (x y w h : Int) : Int × Int × Int × Int :=
  (x, y, w + 6, h + 26)

/-- Number of `SendEvent` calls in a trace. -/
def countSends : List Effect → Nat
  | [] => 0
  | Effect.sendEvent _ _ _ _ :: rest => countSends rest + 1
  | _ :: rest => countSends rest

/-- Number of `LayoutMROpt` calls in a trace. -/
def countLayouts : List Effect → Nat
  | [] => 0
  | Effect.layoutMROpt _ _ _ _ _ :: rest => countLayouts rest + 1
  | _ :: rest => countLayouts rest

/-- The interaction state is idle: the frame is neither moving nor resizing
and the client is not maximized. -/
def isIdle (c : client H NH R) : Bool :=
  !(c.frame.moving || c.frame.resizing || c.maximized)

/-- The property names with a `case` in the switch of `cbPropertyNotify`
(the routing table). -/
def routedNames : List String :=
  [ "_NET_WM_VISIBLE_NAME", "_NET_WM_NAME", "WM_NAME", "_NET_WM_ICON",
    "WM_HINTS", "WM_NORMAL_HINTS", "WM_TRANSIENT_FOR", "_NET_WM_USER_TIME",
    "_NET_WM_STRUT_PARTIAL" ]

/-- Collaborator answers used at concrete inputs.  Atoms 35, 39, 40, 68 and
300 resolve to `WM_HINTS`, `WM_NAME`, `WM_NORMAL_HINTS`, `WM_TRANSIENT_FOR`
and `_NET_WM_USER_TIME`, every other atom to `WM_CLASS`; every query on
window 7 succeeds; the only managed window is 9, with client reference 90. -/
def sampleCollab : Collab Nat Nat Nat :=
  { atomName := fun a =>
      if a = 35 then ("WM_HINTS", false)
      else if a = 39 then ("WM_NAME", false)
      else if a = 40 then ("WM_NORMAL_HINTS", false)
      else if a = 68 then ("WM_TRANSIENT_FOR", false)
      else if a = 300 then ("_NET_WM_USER_TIME", false)
      else ("WM_CLASS", false)
    wmHintsGet := fun w => if w = 7 then some 11 else none
    wmNormalHintsGet := fun w => if w = 7 then some 12 else none
    wmTransientForGet := fun w => if w = 7 then some 9 else none
    findManagedClient := fun w => if w = 9 then some 90 else none
    wmUserTimeGet := fun w => if w = 7 then some 1234 else none }

/-- Collaborator answers in which every query fails and no window is
managed; atoms resolve as in `sampleCollab`. -/
def failingCollab : Collab Nat Nat Nat :=
  { sampleCollab with
    wmHintsGet := fun _ => none
    wmNormalHintsGet := fun _ => none
    wmTransientForGet := fun _ => none
    findManagedClient := fun _ => none
    wmUserTimeGet := fun _ => none }

/-- The protocol round-trips of a trace: the property-name lookup, the
hint, transient-for and user-time re-queries, and the send of a synthetic
event. -/
def isRoundTrip : Effect → Bool
  | Effect.atomName _ => true
  | Effect.wmHintsGet _ => true
  | Effect.wmNormalHintsGet _ => true
  | Effect.wmTransientForGet _ => true
  | Effect.wmUserTimeGet _ => true
  | Effect.sendEvent _ _ _ _ => true
  | _ => false

/-- Number of protocol round-trips in a trace. -/
def countRoundTrips (tr : List Effect) : Nat :=
  (tr.filter isRoundTrip).length

/-- The details tested by the second `if` of `ignoreFocus`. -/
def focusIgnoredDetails : List Nat :=
  [NotifyDetailAncestor, NotifyDetailInferior, NotifyDetailNonlinear,
    NotifyDetailPointer, NotifyDetailPointerRoot, NotifyDetailNone]

/-- The details tested by the second `if` of `ignoreRootFocus`. -/
def rootIgnoredDetails : List Nat :=
  [NotifyDetailAncestor, NotifyDetailInferior, NotifyDetailVirtual,
    NotifyDetailNonlinear, NotifyDetailNonlinearVirtual, NotifyDetailPointer]

/-- The sample client, not iconified, with `unmapIgnore` at -1. -/
def negativeClient : client Nat Nat Nat :=
  { sampleClient with unmapIgnore := -1, iconified := false }

/-- The sample client with `unmapIgnore` at 2. -/
def countingClient : client Nat Nat Nat :=
  { sampleClient with unmapIgnore := 2 }

/-! ## Lifecycle: the `unmapIgnore` discipline -/

/-- One delivery while the counter is positive: the counter drops by one,
nothing else changes, and `unmanage` is not called. -/
theorem cbUnmapNotify_of_pos (cur : Option Nat) (c : client H NH R)
    (hpos : c.unmapIgnore > 0) (hcur : c.iconified = true → cur ≠ none) :
    ∃ tr, cbUnmapNotify cur c
        = some ({ c with unmapIgnore := c.unmapIgnore - 1 }, tr) ∧
      Effect.unmanage ∉ tr := by
  unfold cbUnmapNotify iconifiedAndFocused
  cases hi : c.iconified with
  | false => simp [hpos]
  | true =>
    cases cur with
    | none => exact absurd rfl (hcur hi)
    | some w =>
      by_cases hw : (w == c.id) = true <;> simp [hpos, hw]

/-- One delivery while the counter is not positive: the client record is
unchanged and the trace ends with the one call of `unmanage`. -/
theorem cbUnmapNotify_of_not_pos (cur : Option Nat) (c : client H NH R)
    (hnp : ¬ c.unmapIgnore > 0) (hcur : c.iconified = true → cur ≠ none) :
    ∃ tr, cbUnmapNotify cur c = some (c, tr ++ [Effect.unmanage]) ∧
      Effect.unmanage ∉ tr := by
  unfold cbUnmapNotify iconifiedAndFocused
  cases hi : c.iconified with
  | false => exact ⟨[], by simp [hnp], by simp⟩
  | true =>
    cases cur with
    | none => exact absurd rfl (hcur hi)
    | some w =>
      by_cases hw : (w == c.id) = true
      · exact ⟨[Effect.focusFallback], by simp [hnp, hw], by simp⟩
      · exact ⟨[], by simp [hnp, hw], by simp⟩

/-- The value of `wmUnmaps`: the counter has grown by `n`. -/
theorem wmUnmaps_eq (n : Nat) (c : client H NH R) :
    wmUnmaps n c = { c with unmapIgnore := c.unmapIgnore + n } := by
  induction n generalizing c with
  | zero => simp [wmUnmaps]
  | succ k ih =>
    simp only [wmUnmaps, ih, wmUnmap]
    congr 1
    push_cast
    ring

/-- As many deliveries as the counter counts bring it back to zero without a
call of `unmanage`, and leave the rest of the record as it was. -/
theorem deliverUnmaps_drain (curs : List (Option Nat)) (c : client H NH R)
    (hcnt : c.unmapIgnore = curs.length)
    (hcur : c.iconified = true → ∀ cur ∈ curs, cur ≠ none) :
    ∃ tr, deliverUnmaps curs c = some ({ c with unmapIgnore := 0 }, tr) ∧
      Effect.unmanage ∉ tr := by
  induction curs generalizing c with
  | nil =>
    refine ⟨[], ?_, by simp⟩
    simp only [List.length_nil, Nat.cast_zero] at hcnt
    simp [deliverUnmaps, ← hcnt]
  | cons cur rest ih =>
    have hlen : c.unmapIgnore = (rest.length : Int) + 1 := by
      simpa using hcnt
    have hpos : c.unmapIgnore > 0 := by omega
    obtain ⟨t1, h1, hn1⟩ := cbUnmapNotify_of_pos cur c hpos
      (fun hi => hcur hi cur (List.mem_cons_self _ _))
    obtain ⟨t2, h2, hn2⟩ := ih ({ c with unmapIgnore := c.unmapIgnore - 1 })
      (by simp [hlen])
      (fun hi x hx => hcur hi x (List.mem_cons_of_mem _ hx))
    refine ⟨t1 ++ t2, ?_, ?_⟩
    · simp only [deliverUnmaps, h1, h2]
    · simp [hn1, hn2]

/-- The counter discipline on the runs in which the focus test can be
evaluated (`focus.Current()` answers with a client whenever this client is
iconified): for every `N` and every client whose `unmapIgnore` is 0, after
`N` window-manager unmaps and then `N` deliveries of `UnmapNotify` the
handler has not called `unmanage` and `unmapIgnore` is 0 again, and one more
delivery calls `unmanage`. -/
theorem unmapIgnore_discipline (N : Nat) (c : client H NH R)
    (curs : List (Option Nat)) (last : Option Nat)
    (h0 : c.unmapIgnore = 0) (hlen : curs.length = N)
    (hfocus : c.iconified = true → (∀ cur ∈ curs, cur ≠ none) ∧ last ≠ none) :
    ∃ c1 tr, deliverUnmaps curs (wmUnmaps N c) = some (c1, tr) ∧
      Effect.unmanage ∉ tr ∧ c1.unmapIgnore = 0 ∧
      ∃ c2 tr2, cbUnmapNotify last c1 = some (c2, tr2) ∧
        Effect.unmanage ∈ tr2 := by
  obtain ⟨tr, hrun, hno⟩ := deliverUnmaps_drain curs (wmUnmaps N c)
    (by simp [wmUnmaps_eq, h0, hlen])
    (fun hi => (hfocus (by simpa [wmUnmaps_eq] using hi)).1)
  refine ⟨_, tr, hrun, hno, rfl, ?_⟩
  obtain ⟨t2, h2, _⟩ := cbUnmapNotify_of_not_pos last
    ({ wmUnmaps N c with unmapIgnore := 0 }) (by simp)
    (fun hi => (hfocus (by simpa [wmUnmaps_eq] using hi)).2)
  exact ⟨_, _, h2, by simp⟩

/-- The sample client, first focused itself and then with another client
focused, goes through two unmaps, two deliveries and a third one. -/
theorem unmapIgnore_discipline_witness :
    ∃ c1 tr, deliverUnmaps [some 7, some 1] (wmUnmaps 2 sampleClient)
        = some (c1, tr) ∧
      Effect.unmanage ∉ tr ∧ c1.unmapIgnore = 0 ∧
      ∃ c2 tr2, cbUnmapNotify (some 1) c1 = some (c2, tr2) ∧
        Effect.unmanage ∈ tr2 :=
  unmapIgnore_discipline 2 sampleClient [some 7, some 1] (some 1) rfl rfl
    (fun _ => ⟨by decide, by decide⟩)

/-- Claim C1 fails on the code for an iconified client while
`focus.Current()` is nil.  The sample client is iconified and has
`unmapIgnore = 0`.  With `N = 0` no delivery precedes, and the next
`UnmapNotify` faults at the focus test: the handler returns nothing and
calls no `unmanage`.  With `N = 1` the delivery that follows the one unmap
faults in the same way, so the counter is not brought back to 0.  With
another client focused the same two runs go as the claim says. -/
theorem unmapIgnore_discipline_fault :
    sampleClient.unmapIgnore = 0 ∧ sampleClient.iconified = true ∧
    deliverUnmaps [] (wmUnmaps 0 sampleClient) = some (sampleClient, []) ∧
    cbUnmapNotify none sampleClient = none ∧
    (wmUnmaps 1 sampleClient).unmapIgnore = 1 ∧
    deliverUnmaps [none] (wmUnmaps 1 sampleClient) = none ∧
    cbUnmapNotify (some 1) sampleClient
      = some (sampleClient, [Effect.unmanage]) ∧
    deliverUnmaps [some 1] (wmUnmaps 1 sampleClient)
      = some (sampleClient, []) := by
  decide

/-- Claim C2.  An iconified client that holds global focus and has
`unmapIgnore = 0` handles one `UnmapNotify` without fault, with the client
record unchanged and the trace `focusFallback`, `unmanage`: the fallback
comes before the unmanage and `unmanage` occurs exactly once. -/
theorem unmap_focused_iconified (c : client H NH R)
    (hicon : c.iconified = true) (h0 : c.unmapIgnore = 0) :
    ∃ tr, cbUnmapNotify (some c.id) c = some (c, tr) ∧
      tr = [Effect.focusFallback, Effect.unmanage] ∧
      tr.count Effect.unmanage = 1 ∧
      tr.indexOf Effect.focusFallback < tr.indexOf Effect.unmanage := by
  refine ⟨[Effect.focusFallback, Effect.unmanage], ?_, rfl, by decide, by decide⟩
  simp [cbUnmapNotify, iconifiedAndFocused, hicon, h0]

/-- The sample client is iconified, has a zero counter, and is focused. -/
theorem unmap_focused_iconified_witness :
    sampleClient.iconified = true ∧ sampleClient.unmapIgnore = 0 ∧
    ∃ tr, cbUnmapNotify (some sampleClient.id) sampleClient
        = some (sampleClient, tr) ∧
      tr = [Effect.focusFallback, Effect.unmanage] ∧
      tr.count Effect.unmanage = 1 ∧
      tr.indexOf Effect.focusFallback < tr.indexOf Effect.unmanage :=
  ⟨rfl, rfl, unmap_focused_iconified sampleClient rfl rfl⟩

/-! ## Configure arbitrator -/

/-- The conversion `int16` is the identity on the values an `int16` holds. -/
theorem toInt16_of_range (n : Int) (hlo : -32768 ≤ n) (hhi : n < 32768) :
    toInt16 n = n := by
  unfold toInt16
  omega

/-- The conversion `uint16` is the identity on the values a `uint16` holds. -/
theorem toUint16_of_range (n : Int) (hlo : 0 ≤ n) (hhi : n < 65536) :
    toUint16 n = n := by
  unfold toUint16
  omega

/-- The denying branch of `cbConfigureRequest`. -/
theorem cbConfigureRequest_of_busy
    (ctf : Frame → Int → Int → Int → Int → Int × Int × Int × Int)
    (ev : ConfigureRequestEvent) (c : client H NH R)
    (hc : (c.frame.moving || c.frame.resizing || c.maximized) = true) :
    cbConfigureRequest ctf ev c = (c, sendConfigureNotify c) := by
  simp only [cbConfigureRequest, hc, if_true]

/-- The granting branch of `cbConfigureRequest`. -/
theorem cbConfigureRequest_of_idle
    (ctf : Frame → Int → Int → Int → Int → Int × Int × Int × Int)
    (ev : ConfigureRequestEvent) (c : client H NH R)
    (hc : (c.frame.moving || c.frame.resizing || c.maximized) = false) :
    cbConfigureRequest ctf ev c
      = (c, [Effect.layoutMROpt (configureFlags ev.ValueMask)
          (ctf c.frame ev.X ev.Y ev.Width ev.Height).1
          (ctf c.frame ev.X ev.Y ev.Width ev.Height).2.1
          (ctf c.frame ev.X ev.Y ev.Width ev.Height).2.2.1
          (ctf c.frame ev.X ev.Y ev.Width ev.Height).2.2.2]) := by
  simp only [cbConfigureRequest, hc]
  rfl

/-- Claim C3 as stated fails: for the moving sample client (frame 300 x 400
around a window 290 x 380) the one notification sent reports 290 x 380, the
size of the client window, so no notification carrying the frame's geometry
is produced. -/
theorem configure_denial_counterexample :
    movingClient.frame.moving = true ∧
    (cbConfigureRequest sampleClientToFrame sampleRequest movingClient).2
      = [Effect.sendEvent false 7 EventMaskStructureNotify
          { Event := 7, Window := 7, AboveSibling := 0, X := 10, Y := 20,
            Width := 290, Height := 380, BorderWidth := 0,
            OverrideRedirect := false }] ∧
    movingClient.frame.geom = { x := 10, y := 20, width := 300, height := 400 } ∧
    ¬ ∃ e : ConfigureNotifyEvent,
      (cbConfigureRequest sampleClientToFrame sampleRequest movingClient).2
        = [Effect.sendEvent false 7 EventMaskStructureNotify e] ∧
      e.X = movingClient.frame.geom.x ∧ e.Y = movingClient.frame.geom.y ∧
      e.Width = movingClient.frame.geom.width ∧
      e.Height = movingClient.frame.geom.height := by
  have htr : (cbConfigureRequest sampleClientToFrame sampleRequest movingClient).2
      = [Effect.sendEvent false 7 EventMaskStructureNotify
          { Event := 7, Window := 7, AboveSibling := 0, X := 10, Y := 20,
            Width := 290, Height := 380, BorderWidth := 0,
            OverrideRedirect := false }] := by decide
  refine ⟨rfl, htr, rfl, ?_⟩
  rintro ⟨e, he, -, -, hw, -⟩
  rw [htr] at he
  simp only [List.cons.injEq, Effect.sendEvent.injEq, and_true, true_and] at he
  subst he
  revert hw
  decide

/-- Claim C3, amended.  For a client whose frame is moving, every configure
request leaves the client record unchanged and produces exactly one call,
a `SendEvent` of a `ConfigureNotify` whose `X`, `Y` are the frame's current
x, y and whose `Width`, `Height` are the client window's last known width and
height, each converted to its 16-bit field (the identity on values in
range); `LayoutMROpt` is not called. -/
theorem configure_denial_moving
    (ctf : Frame → Int → Int → Int → Int → Int × Int × Int × Int)
    (ev : ConfigureRequestEvent) (c : client H NH R)
    (hmov : c.frame.moving = true) :
    (cbConfigureRequest ctf ev c).1 = c ∧
    ∃ e : ConfigureNotifyEvent,
      (cbConfigureRequest ctf ev c).2
        = [Effect.sendEvent false c.id EventMaskStructureNotify e] ∧
      e.X = toInt16 c.frame.geom.x ∧ e.Y = toInt16 c.frame.geom.y ∧
      e.Width = toUint16 c.winGeom.width ∧
      e.Height = toUint16 c.winGeom.height ∧
      (-32768 ≤ c.frame.geom.x → c.frame.geom.x < 32768 →
        e.X = c.frame.geom.x) ∧
      (-32768 ≤ c.frame.geom.y → c.frame.geom.y < 32768 →
        e.Y = c.frame.geom.y) ∧
      (0 ≤ c.winGeom.width → c.winGeom.width < 65536 →
        e.Width = c.winGeom.width) ∧
      (0 ≤ c.winGeom.height → c.winGeom.height < 65536 →
        e.Height = c.winGeom.height) ∧
      countSends (cbConfigureRequest ctf ev c).2 = 1 ∧
      countLayouts (cbConfigureRequest ctf ev c).2 = 0 := by
  have hrun := cbConfigureRequest_of_busy ctf ev c (by simp [hmov])
  refine ⟨by rw [hrun], configureNotifyOf c, by rw [hrun]; rfl, rfl, rfl, rfl, rfl,
    ?_, ?_, ?_, ?_, by rw [hrun]; rfl, by rw [hrun]; rfl⟩
  · exact fun h1 h2 => toInt16_of_range _ h1 h2
  · exact fun h1 h2 => toInt16_of_range _ h1 h2
  · exact fun h1 h2 => toUint16_of_range _ h1 h2
  · exact fun h1 h2 => toUint16_of_range _ h1 h2

/-- The moving sample client answers the sample request with one
notification carrying (10, 20) and 290 x 380. -/
theorem configure_denial_moving_witness :
    movingClient.frame.moving = true ∧
    (cbConfigureRequest sampleClientToFrame sampleRequest movingClient).1
      = movingClient ∧
    ∃ e : ConfigureNotifyEvent,
      (cbConfigureRequest sampleClientToFrame sampleRequest movingClient).2
        = [Effect.sendEvent false movingClient.id EventMaskStructureNotify e] ∧
      e.X = toInt16 movingClient.frame.geom.x ∧
      e.Y = toInt16 movingClient.frame.geom.y ∧
      e.Width = toUint16 movingClient.winGeom.width ∧
      e.Height = toUint16 movingClient.winGeom.height ∧
      (-32768 ≤ movingClient.frame.geom.x → movingClient.frame.geom.x < 32768 →
        e.X = movingClient.frame.geom.x) ∧
      (-32768 ≤ movingClient.frame.geom.y → movingClient.frame.geom.y < 32768 →
        e.Y = movingClient.frame.geom.y) ∧
      (0 ≤ movingClient.winGeom.width → movingClient.winGeom.width < 65536 →
        e.Width = movingClient.winGeom.width) ∧
      (0 ≤ movingClient.winGeom.height → movingClient.winGeom.height < 65536 →
        e.Height = movingClient.winGeom.height) ∧
      countSends
        (cbConfigureRequest sampleClientToFrame sampleRequest movingClient).2 = 1 ∧
      countLayouts
        (cbConfigureRequest sampleClientToFrame sampleRequest movingClient).2 = 0 :=
  ⟨rfl, configure_denial_moving sampleClientToFrame sampleRequest movingClient rfl⟩

/-- Bit `i` of the mask handed to `LayoutMROpt`: the bit of the request's
mask, cleared where the stack-mode or the sibling constant has its bit. -/
theorem testBit_configureFlags (valueMask : Int) (i : Nat) :
    Int.testBit (configureFlags valueMask) i
      = (Int.testBit valueMask i && !Int.testBit ConfigWindowStackMode i
          && !Int.testBit ConfigWindowSibling i) := by
  simp [configureFlags, Int.testBit_land, Int.testBit_lnot]

/-- The sibling constant is bit 5 alone and the stack-mode constant bit 6
alone. -/
theorem testBit_stacking_constants (i : Nat) :
    Int.testBit ConfigWindowSibling i = decide (i = 5) ∧
    Int.testBit ConfigWindowStackMode i = decide (i = 6) := by
  have h5 : ConfigWindowSibling = ((2 ^ 5 : Nat) : Int) := by decide
  have h6 : ConfigWindowStackMode = ((2 ^ 6 : Nat) : Int) := by decide
  rw [h5, h6]
  simp only [Int.testBit, Nat.testBit_two_pow]
  constructor <;> congr 1 <;> exact propext eq_comm

/-- Claim C4.  For an idle client, every configure request leaves the client
record unchanged and produces exactly one call, `LayoutMROpt`, whose mask is
the request's `ValueMask` with the `ConfigWindowStackMode` and
`ConfigWindowSibling` bits (bits 6 and 5) cleared and every other bit
unchanged, and whose geometry is `frame.ClientToFrame` of the request's
`X`, `Y`, `Width`, `Height`. -/
theorem configure_grant_idle
    (ctf : Frame → Int → Int → Int → Int → Int × Int × Int × Int)
    (ev : ConfigureRequestEvent) (c : client H NH R)
    (hidle : isIdle c = true) :
    (cbConfigureRequest ctf ev c).1 = c ∧
    ∃ flags x y w h : Int,
      (cbConfigureRequest ctf ev c).2 = [Effect.layoutMROpt flags x y w h] ∧
      (x, y, w, h) = ctf c.frame ev.X ev.Y ev.Width ev.Height ∧
      (∀ i, Int.testBit flags i
        = (Int.testBit ev.ValueMask i && !Int.testBit ConfigWindowStackMode i
            && !Int.testBit ConfigWindowSibling i)) ∧
      Int.testBit flags 5 = false ∧ Int.testBit flags 6 = false ∧
      (∀ i, i ≠ 5 → i ≠ 6 → Int.testBit flags i = Int.testBit ev.ValueMask i) ∧
      countLayouts (cbConfigureRequest ctf ev c).2 = 1 ∧
      countSends (cbConfigureRequest ctf ev c).2 = 0 := by
  have hcond : (c.frame.moving || c.frame.resizing || c.maximized) = false := by
    simpa [isIdle] using hidle
  have hrun := cbConfigureRequest_of_idle ctf ev c hcond
  refine ⟨by rw [hrun], _, _, _, _, _, hrun ▸ rfl, rfl, testBit_configureFlags _,
    ?_, ?_, ?_, by rw [hrun]; rfl, by rw [hrun]; rfl⟩
  · simp [testBit_configureFlags, (testBit_stacking_constants 5).1]
  · simp [testBit_configureFlags, (testBit_stacking_constants 6).2]
  · intro i h5 h6
    simp [testBit_configureFlags, (testBit_stacking_constants i).1,
      (testBit_stacking_constants i).2, h5, h6]

/-- The mask 111 of the sample request (x, y, width, height, sibling,
stack-mode) is reduced to 15 (x, y, width, height). -/
theorem configureFlags_sampleRequest :
    configureFlags sampleRequest.ValueMask = 15 := by
  show ((Nat.ldiff (Nat.ldiff 111 64) 32 : Nat) : Int) = ((15 : Nat) : Int)
  congr 1
  apply Nat.eq_of_testBit_eq
  intro i
  rw [Nat.testBit_ldiff, Nat.testBit_ldiff]
  by_cases hi : i < 7
  · interval_cases i <;> decide
  · have h2 : (2 : Nat) ^ 7 ≤ 2 ^ i := Nat.pow_le_pow_right (by decide) (by omega)
    have h111 : Nat.testBit 111 i = false := Nat.testBit_lt_two_pow (by omega)
    have h15 : Nat.testBit 15 i = false := Nat.testBit_lt_two_pow (by omega)
    simp [h111, h15]

/-- The idle sample client grants the sample request: the one call is
`LayoutMROpt` with mask 15 and geometry (1, 2, 36, 66). -/
theorem configure_grant_sample_trace :
    (cbConfigureRequest sampleClientToFrame sampleRequest sampleClient).2
      = [Effect.layoutMROpt 15 1 2 36 66] := by
  have h : (cbConfigureRequest sampleClientToFrame sampleRequest sampleClient).2
      = [Effect.layoutMROpt (configureFlags sampleRequest.ValueMask) 1 2 36 66] := rfl
  rw [h, configureFlags_sampleRequest]

/-- The sample client is idle, so the grant applies to it. -/
theorem configure_grant_idle_witness :
    isIdle sampleClient = true ∧
    (cbConfigureRequest sampleClientToFrame sampleRequest sampleClient).1
      = sampleClient ∧
    ∃ flags x y w h : Int,
      (cbConfigureRequest sampleClientToFrame sampleRequest sampleClient).2
        = [Effect.layoutMROpt flags x y w h] ∧
      (x, y, w, h) = sampleClientToFrame sampleClient.frame sampleRequest.X
        sampleRequest.Y sampleRequest.Width sampleRequest.Height ∧
      (∀ i, Int.testBit flags i
        = (Int.testBit sampleRequest.ValueMask i
            && !Int.testBit ConfigWindowStackMode i
            && !Int.testBit ConfigWindowSibling i)) ∧
      Int.testBit flags 5 = false ∧ Int.testBit flags 6 = false ∧
      (∀ i, i ≠ 5 → i ≠ 6 →
        Int.testBit flags i = Int.testBit sampleRequest.ValueMask i) ∧
      countLayouts
        (cbConfigureRequest sampleClientToFrame sampleRequest sampleClient).2 = 1 ∧
      countSends
        (cbConfigureRequest sampleClientToFrame sampleRequest sampleClient).2 = 0 :=
  ⟨rfl, configure_grant_idle sampleClientToFrame sampleRequest sampleClient rfl⟩

/-- Claim C5.  For every configure request and every client state the
handler does exactly one of two things and leaves the client record as it
was: when the client is not idle (moving, resizing or maximized) the trace
is the one `SendEvent` of `sendConfigureNotify` and holds no `LayoutMROpt`;
when it is idle the trace is one `LayoutMROpt` and holds no `SendEvent`. -/
theorem configure_request_dichotomy
    (ctf : Frame → Int → Int → Int → Int → Int × Int × Int × Int)
    (ev : ConfigureRequestEvent) (c : client H NH R) :
    (cbConfigureRequest ctf ev c).1 = c ∧
    (cbConfigureRequest ctf ev c).2.length = 1 ∧
    (((c.frame.moving = true ∨ c.frame.resizing = true ∨ c.maximized = true) ∧
        (cbConfigureRequest ctf ev c).2 = sendConfigureNotify c ∧
        countSends (cbConfigureRequest ctf ev c).2 = 1 ∧
        countLayouts (cbConfigureRequest ctf ev c).2 = 0) ∨
      ((c.frame.moving = false ∧ c.frame.resizing = false ∧ c.maximized = false) ∧
        countLayouts (cbConfigureRequest ctf ev c).2 = 1 ∧
        countSends (cbConfigureRequest ctf ev c).2 = 0)) := by
  by_cases hc : (c.frame.moving || c.frame.resizing || c.maximized) = true
  · have hrun := cbConfigureRequest_of_busy ctf ev c hc
    refine ⟨by rw [hrun], by rw [hrun]; rfl, Or.inl ⟨?_, by rw [hrun], ?_, ?_⟩⟩
    · simpa [or_assoc] using hc
    · rw [hrun]; rfl
    · rw [hrun]; rfl
  · have hrun := cbConfigureRequest_of_idle ctf ev c (by simpa using hc)
    refine ⟨by rw [hrun], by rw [hrun]; rfl, Or.inr ⟨?_, ?_, ?_⟩⟩
    · simpa [and_assoc] using hc
    · rw [hrun]; rfl
    · rw [hrun]; rfl

/-! ## Focus classifiers -/

/-- Claim C6.  On the 4 protocol modes and 8 protocol details,
`ignoreFocus` returns false exactly when the mode is Normal or WhileGrabbed
and the detail is Virtual or NonlinearVirtual, and true on the other 28
pairs. -/
theorem ignoreFocus_table :
    ∀ m ∈ protocolModes, ∀ d ∈ protocolDetails,
      (ignoreFocus m d = false ↔
        ((m = NotifyModeNormal ∨ m = NotifyModeWhileGrabbed) ∧
         (d = NotifyDetailVirtual ∨ d = NotifyDetailNonlinearVirtual))) ∧
      (ignoreFocus m d = true ↔
        ¬ ((m = NotifyModeNormal ∨ m = NotifyModeWhileGrabbed) ∧
           (d = NotifyDetailVirtual ∨ d = NotifyDetailNonlinearVirtual))) := by
  decide

/-- The pair (WhileGrabbed, NonlinearVirtual) is accepted by `ignoreFocus`. -/
theorem ignoreFocus_table_witness :
    ignoreFocus NotifyModeWhileGrabbed NotifyDetailNonlinearVirtual = false :=
  (ignoreFocus_table NotifyModeWhileGrabbed (by decide)
    NotifyDetailNonlinearVirtual (by decide)).1.2 (by decide)

/-- Claim C7.  On the 4 protocol modes and 8 protocol details,
`ignoreRootFocus` returns false exactly when the mode is Normal or
WhileGrabbed and the detail is PointerRoot or None, and true on the other 28
pairs. -/
theorem ignoreRootFocus_table :
    ∀ m ∈ protocolModes, ∀ d ∈ protocolDetails,
      (ignoreRootFocus m d = false ↔
        ((m = NotifyModeNormal ∨ m = NotifyModeWhileGrabbed) ∧
         (d = NotifyDetailPointerRoot ∨ d = NotifyDetailNone))) ∧
      (ignoreRootFocus m d = true ↔
        ¬ ((m = NotifyModeNormal ∨ m = NotifyModeWhileGrabbed) ∧
           (d = NotifyDetailPointerRoot ∨ d = NotifyDetailNone))) := by
  decide

/-- The pair (Normal, PointerRoot) is accepted by `ignoreRootFocus`. -/
theorem ignoreRootFocus_table_witness :
    ignoreRootFocus NotifyModeNormal NotifyDetailPointerRoot = false :=
  (ignoreRootFocus_table NotifyModeNormal (by decide)
    NotifyDetailPointerRoot (by decide)).1.2 (by decide)

/-! ## Property refresh router -/

/-- The switch on one of the three name properties. -/
theorem propertySwitch_name (q : Collab H NH R) (name : String)
    (c : client H NH R)
    (h : name = "_NET_WM_VISIBLE_NAME" ∨ name = "_NET_WM_NAME" ∨ name = "WM_NAME") :
    propertySwitch q name c = (c, [Effect.refreshName]) := by
  simp only [propertySwitch, h, if_true]

/-- The switch on a name without a case. -/
theorem propertySwitch_unrouted (q : Collab H NH R) (name : String)
    (c : client H NH R) (h : name ∉ routedNames) :
    propertySwitch q name c = (c, []) := by
  simp only [routedNames, List.mem_cons, List.mem_singleton, List.not_mem_nil,
    or_false, not_or] at h
  obtain ⟨h1, h2, h3, h4, h5, h6, h7, h8, h9⟩ := h
  simp [propertySwitch, h1, h2, h3, h4, h5, h6, h7, h8, h9]

/-- Claim C8.  A property notification whose atom resolves to `WM_NAME`
leaves the client record unchanged and, after the name lookup, makes the one
call `refreshName` and no re-query; one whose atom resolves to a name outside
the routing table leaves the record unchanged and, after the name lookup,
makes no call at all. -/
theorem property_routing (q : Collab H NH R) (atom : Nat) (c : client H NH R) :
    ((q.atomName atom).1 = "WM_NAME" →
      cbPropertyNotify q atom c
        = (c, [Effect.atomName atom, Effect.refreshName])) ∧
    ((q.atomName atom).1 ∉ routedNames →
      cbPropertyNotify q atom c = (c, [Effect.atomName atom])) := by
  constructor
  · intro h
    simp only [cbPropertyNotify,
      propertySwitch_name q _ c (Or.inr (Or.inr h))]
  · intro h
    simp only [cbPropertyNotify, propertySwitch_unrouted q _ c h]

/-- With the sample answers, atom 39 (`WM_NAME`) refreshes the name and atom
67 (`WM_CLASS`, not routed) does nothing after the lookup. -/
theorem property_routing_witness :
    cbPropertyNotify sampleCollab 39 sampleClient
        = (sampleClient, [Effect.atomName 39, Effect.refreshName]) ∧
    cbPropertyNotify sampleCollab 67 sampleClient
        = (sampleClient, [Effect.atomName 67]) :=
  ⟨(property_routing sampleCollab 39 sampleClient).1 (by decide),
    (property_routing sampleCollab 67 sampleClient).2 (by decide)⟩

/-- The switch on `WM_HINTS`. -/
theorem propertySwitch_hints (q : Collab H NH R) (c : client H NH R) :
    propertySwitch q "WM_HINTS" c
      = match q.wmHintsGet c.id with
        | some hints => ({ c with hints := hints }, [Effect.wmHintsGet c.id])
        | none => (c, [Effect.wmHintsGet c.id]) := by
  simp [propertySwitch]

/-- The switch on `WM_NORMAL_HINTS`. -/
theorem propertySwitch_nhints (q : Collab H NH R) (c : client H NH R) :
    propertySwitch q "WM_NORMAL_HINTS" c
      = match q.wmNormalHintsGet c.id with
        | some nhints =>
          ({ c with nhints := nhints }, [Effect.wmNormalHintsGet c.id])
        | none => (c, [Effect.wmNormalHintsGet c.id]) := by
  simp [propertySwitch]

/-- The switch on `_NET_WM_USER_TIME`. -/
theorem propertySwitch_time (q : Collab H NH R) (c : client H NH R) :
    propertySwitch q "_NET_WM_USER_TIME" c
      = match q.wmUserTimeGet c.id with
        | some newTime =>
          ({ c with time := toTimestamp newTime }, [Effect.wmUserTimeGet c.id])
        | none => (c, [Effect.wmUserTimeGet c.id]) := by
  simp [propertySwitch]

/-- The switch on `WM_TRANSIENT_FOR`. -/
theorem propertySwitch_transient (q : Collab H NH R) (c : client H NH R) :
    propertySwitch q "WM_TRANSIENT_FOR" c
      = match q.wmTransientForGet c.id with
        | some transWin =>
          match q.findManagedClient transWin with
          | some transCli =>
            ({ c with transientFor := some transCli },
              [Effect.wmTransientForGet c.id, Effect.findManagedClient transWin])
          | none =>
            (c, [Effect.wmTransientForGet c.id, Effect.findManagedClient transWin])
        | none => (c, [Effect.wmTransientForGet c.id]) := by
  simp [propertySwitch]

/-- The conversion to `Timestamp` is the identity on 32-bit values. -/
theorem toTimestamp_of_lt (n : Nat) (h : n < 4294967296) : toTimestamp n = n :=
  Nat.mod_eq_of_lt h

/-- Claim C9.  For `WM_HINTS`, `WM_NORMAL_HINTS` and `_NET_WM_USER_TIME`:
when the re-query succeeds the handler returns the client record with the
cached field (`hints`, `nhints`, `time`) replaced by the queried value and
nothing else changed; when it fails the handler returns the client record
unchanged.  The handler is a total function: it returns in both cases.  The
user time is stored through the conversion to the 32-bit `Timestamp`, which
is the identity on every value a 32-bit property holds. -/
theorem property_requery (q : Collab H NH R) (atom : Nat) (c : client H NH R) :
    ((q.atomName atom).1 = "WM_HINTS" →
      (∀ v, q.wmHintsGet c.id = some v →
        cbPropertyNotify q atom c
          = ({ c with hints := v }, [Effect.atomName atom, Effect.wmHintsGet c.id])) ∧
      (q.wmHintsGet c.id = none →
        cbPropertyNotify q atom c
          = (c, [Effect.atomName atom, Effect.wmHintsGet c.id]))) ∧
    ((q.atomName atom).1 = "WM_NORMAL_HINTS" →
      (∀ v, q.wmNormalHintsGet c.id = some v →
        cbPropertyNotify q atom c
          = ({ c with nhints := v },
              [Effect.atomName atom, Effect.wmNormalHintsGet c.id])) ∧
      (q.wmNormalHintsGet c.id = none →
        cbPropertyNotify q atom c
          = (c, [Effect.atomName atom, Effect.wmNormalHintsGet c.id]))) ∧
    ((q.atomName atom).1 = "_NET_WM_USER_TIME" →
      (∀ v, q.wmUserTimeGet c.id = some v →
        cbPropertyNotify q atom c
          = ({ c with time := toTimestamp v },
              [Effect.atomName atom, Effect.wmUserTimeGet c.id]) ∧
        (v < 4294967296 → (cbPropertyNotify q atom c).1.time = v)) ∧
      (q.wmUserTimeGet c.id = none →
        cbPropertyNotify q atom c
          = (c, [Effect.atomName atom, Effect.wmUserTimeGet c.id]))) := by
  refine ⟨fun hn => ⟨fun v hv => ?_, fun hv => ?_⟩,
    fun hn => ⟨fun v hv => ?_, fun hv => ?_⟩,
    fun hn => ⟨fun v hv => ⟨?_, fun hlt => ?_⟩, fun hv => ?_⟩⟩
  · simp only [cbPropertyNotify, hn, propertySwitch_hints, hv]
  · simp only [cbPropertyNotify, hn, propertySwitch_hints, hv]
  · simp only [cbPropertyNotify, hn, propertySwitch_nhints, hv]
  · simp only [cbPropertyNotify, hn, propertySwitch_nhints, hv]
  · simp only [cbPropertyNotify, hn, propertySwitch_time, hv]
  · simp only [cbPropertyNotify, hn, propertySwitch_time, hv]
    exact toTimestamp_of_lt v hlt
  · simp only [cbPropertyNotify, hn, propertySwitch_time, hv]

/-- With the sample answers the three re-queries succeed and replace the
cached fields by 11, 12 and 1234; with the failing answers the record is
returned as it was. -/
theorem property_requery_witness :
    (cbPropertyNotify sampleCollab 35 sampleClient).1
        = { sampleClient with hints := 11 } ∧
    (cbPropertyNotify sampleCollab 40 sampleClient).1
        = { sampleClient with nhints := 12 } ∧
    (cbPropertyNotify sampleCollab 300 sampleClient).1.time = 1234 ∧
    (cbPropertyNotify failingCollab 35 sampleClient).1 = sampleClient ∧
    (cbPropertyNotify failingCollab 40 sampleClient).1 = sampleClient ∧
    (cbPropertyNotify failingCollab 300 sampleClient).1 = sampleClient :=
  ⟨congrArg Prod.fst
      (((property_requery sampleCollab 35 sampleClient).1 (by decide)).1 11 rfl),
    congrArg Prod.fst
      (((property_requery sampleCollab 40 sampleClient).2.1 (by decide)).1 12 rfl),
    ((((property_requery sampleCollab 300 sampleClient).2.2 (by decide)).1
      1234 rfl).2 (by decide)),
    congrArg Prod.fst
      (((property_requery failingCollab 35 sampleClient).1 (by decide)).2 rfl),
    congrArg Prod.fst
      (((property_requery failingCollab 40 sampleClient).2.1 (by decide)).2 rfl),
    congrArg Prod.fst
      (((property_requery failingCollab 300 sampleClient).2.2 (by decide)).2 rfl)⟩

/-- Claim C10.  On a `WM_TRANSIENT_FOR` change the handler sets
`transientFor` to the client returned by `findManagedClient` for the queried
window when the query succeeds and that window is managed, and returns the
client record unchanged when the query fails or the window is not managed.
Hence whenever the returned `transientFor` differs from the previous one, it
is the client that `findManagedClient` returns for the queried window. -/
theorem property_transient_for (q : Collab H NH R) (atom : Nat)
    (c : client H NH R) (hn : (q.atomName atom).1 = "WM_TRANSIENT_FOR") :
    (∀ w r, q.wmTransientForGet c.id = some w → q.findManagedClient w = some r →
      cbPropertyNotify q atom c
        = ({ c with transientFor := some r },
            [Effect.atomName atom, Effect.wmTransientForGet c.id,
              Effect.findManagedClient w])) ∧
    (∀ w, q.wmTransientForGet c.id = some w → q.findManagedClient w = none →
      cbPropertyNotify q atom c
        = (c, [Effect.atomName atom, Effect.wmTransientForGet c.id,
              Effect.findManagedClient w])) ∧
    (q.wmTransientForGet c.id = none →
      cbPropertyNotify q atom c
        = (c, [Effect.atomName atom, Effect.wmTransientForGet c.id])) ∧
    ((cbPropertyNotify q atom c).1.transientFor ≠ c.transientFor →
      ∃ w r, q.wmTransientForGet c.id = some w ∧
        q.findManagedClient w = some r ∧
        (cbPropertyNotify q atom c).1.transientFor = some r) := by
  refine ⟨fun w r hw hr => ?_, fun w hw hr => ?_, fun hw => ?_, fun hne => ?_⟩
  · simp only [cbPropertyNotify, hn, propertySwitch_transient, hw, hr]
  · simp only [cbPropertyNotify, hn, propertySwitch_transient, hw, hr]
  · simp only [cbPropertyNotify, hn, propertySwitch_transient, hw]
  · cases hw : q.wmTransientForGet c.id with
    | none =>
      simp only [cbPropertyNotify, hn, propertySwitch_transient, hw] at hne
      exact absurd rfl hne
    | some w =>
      cases hr : q.findManagedClient w with
      | none =>
        simp only [cbPropertyNotify, hn, propertySwitch_transient, hw, hr] at hne
        exact absurd rfl hne
      | some r =>
        exact ⟨w, r, rfl, hr, by
          simp only [cbPropertyNotify, hn, propertySwitch_transient, hw, hr]⟩

/-- With the sample answers atom 68 resolves to `WM_TRANSIENT_FOR`, the
query on window 7 gives window 9, which is managed with reference 90. -/
theorem property_transient_for_witness :
    (sampleCollab.atomName 68).1 = "WM_TRANSIENT_FOR" ∧
    cbPropertyNotify sampleCollab 68 sampleClient
      = ({ sampleClient with transientFor := some 90 },
          [Effect.atomName 68, Effect.wmTransientForGet 7,
            Effect.findManagedClient 9]) :=
  ⟨by decide,
    (property_transient_for sampleCollab 68 sampleClient (by decide)).1 9 90
      rfl rfl⟩

/-! ## Synthetic notification -/

/-- Claim C11.  For every client, `sendConfigureNotify` makes the one call
`SendEvent` with propagate `false`, destination the client id and mask
`EventMaskStructureNotify`, of an event with `Event` and `Window` the client
id, `AboveSibling` 0, `BorderWidth` 0, `OverrideRedirect` false, `X` and `Y`
the x and y of the current frame geometry and `Width` and `Height` the last
known width and height of the client window.  The four geometry fields go
through the conversion to their 16-bit type, which is the identity on the
values such a field holds. -/
theorem sendConfigureNotify_content (c : client H NH R) :
    ∃ e : ConfigureNotifyEvent,
      sendConfigureNotify c
        = [Effect.sendEvent false c.id EventMaskStructureNotify e] ∧
      e.Event = c.id ∧ e.Window = c.id ∧ e.AboveSibling = 0 ∧
      e.BorderWidth = 0 ∧ e.OverrideRedirect = false ∧
      e.X = toInt16 c.frame.geom.x ∧ e.Y = toInt16 c.frame.geom.y ∧
      e.Width = toUint16 c.winGeom.width ∧
      e.Height = toUint16 c.winGeom.height ∧
      (-32768 ≤ c.frame.geom.x → c.frame.geom.x < 32768 →
        e.X = c.frame.geom.x) ∧
      (-32768 ≤ c.frame.geom.y → c.frame.geom.y < 32768 →
        e.Y = c.frame.geom.y) ∧
      (0 ≤ c.winGeom.width → c.winGeom.width < 65536 →
        e.Width = c.winGeom.width) ∧
      (0 ≤ c.winGeom.height → c.winGeom.height < 65536 →
        e.Height = c.winGeom.height) :=
  ⟨configureNotifyOf c, rfl, rfl, rfl, rfl, rfl, rfl, rfl, rfl, rfl, rfl,
    fun h1 h2 => toInt16_of_range _ h1 h2,
    fun h1 h2 => toInt16_of_range _ h1 h2,
    fun h1 h2 => toUint16_of_range _ h1 h2,
    fun h1 h2 => toUint16_of_range _ h1 h2⟩

/-- The notification of the sample client: ids 7, position (10, 20) of the
frame, size 290 x 380 of the client window. -/
theorem sendConfigureNotify_sample :
    sendConfigureNotify sampleClient
      = [Effect.sendEvent false 7 131072
          { Event := 7, Window := 7, AboveSibling := 0, X := 10, Y := 20,
            Width := 290, Height := 380, BorderWidth := 0,
            OverrideRedirect := false }] := by
  decide

/-! ## Lifecycle: focus fallback, counter invariant, faults -/

/-- The whole result of `cbUnmapNotify` when the focus test can be
evaluated. -/
theorem cbUnmapNotify_eq (cur : Option Nat) (c : client H NH R)
    (hcur : c.iconified = true → cur ≠ none) :
    cbUnmapNotify cur c
      = some (if c.unmapIgnore > 0 then
            { c with unmapIgnore := c.unmapIgnore - 1 } else c,
          (if c.iconified = true ∧ cur = some c.id then
            [Effect.focusFallback] else [])
          ++ (if c.unmapIgnore > 0 then [] else [Effect.unmanage])) := by
  unfold cbUnmapNotify iconifiedAndFocused
  cases hi : c.iconified with
  | false => by_cases hp : c.unmapIgnore > 0 <;> simp [hp]
  | true =>
    cases cur with
    | none => exact absurd rfl (hcur hi)
    | some w =>
      by_cases hw : w = c.id <;> by_cases hp : c.unmapIgnore > 0 <;>
        simp [hp, hw]

/-- The focus test faults for an iconified client when `focus.Current()` is
nil. -/
theorem cbUnmapNotify_fault (c : client H NH R) (hi : c.iconified = true) :
    cbUnmapNotify none c = none := by
  simp [cbUnmapNotify, iconifiedAndFocused, hi]

/-- Claim C12.  For every `UnmapNotify` and every client state, whatever the
value of `unmapIgnore`: when the focus test can be evaluated the handler
returns, and `focusFallback` is in its trace if and only if the client is
iconified and is the client holding focus; it is then called once and is the
first call, before `unmanage`.  In the remaining case (iconified, nobody
focused) the handler makes no call at all, and the client is not the one
holding focus. -/
theorem focus_fallback_iff (cur : Option Nat) (c : client H NH R) :
    ((c.iconified = true → cur ≠ none) →
      ∃ c1 tr, cbUnmapNotify cur c = some (c1, tr) ∧
        (Effect.focusFallback ∈ tr ↔ (c.iconified = true ∧ cur = some c.id)) ∧
        tr.count Effect.focusFallback ≤ 1 ∧
        ((c.iconified = true ∧ cur = some c.id) →
          tr.count Effect.focusFallback = 1 ∧
          ∃ rest, tr = Effect.focusFallback :: rest ∧
            Effect.focusFallback ∉ rest)) ∧
    (c.iconified = true → cur = none →
      cbUnmapNotify cur c = none ∧ cur ≠ some c.id) := by
  constructor
  · intro hcur
    refine ⟨_, _, cbUnmapNotify_eq cur c hcur, ?_, ?_, ?_⟩
    · by_cases hcond : c.iconified = true ∧ cur = some c.id <;>
        by_cases hp : c.unmapIgnore > 0 <;> simp [hcond, hp]
    · by_cases hcond : c.iconified = true ∧ cur = some c.id <;>
        by_cases hp : c.unmapIgnore > 0 <;> simp [hcond, hp]
    · intro hcond
      by_cases hp : c.unmapIgnore > 0 <;> simp [hcond, hp]
  · intro hi hn
    subst hn
    exact ⟨cbUnmapNotify_fault c hi, by simp⟩

/-- The sample client (iconified, id 7) calls the fallback when client 7
holds focus and does not when client 1 does. -/
theorem focus_fallback_iff_witness :
    cbUnmapNotify (some 7) sampleClient
        = some (sampleClient, [Effect.focusFallback, Effect.unmanage]) ∧
    cbUnmapNotify (some 1) sampleClient
        = some (sampleClient, [Effect.unmanage]) ∧
    (∃ c1 tr, cbUnmapNotify (some 7) countingClient = some (c1, tr) ∧
      (Effect.focusFallback ∈ tr ↔
        (countingClient.iconified = true ∧ some 7 = some countingClient.id)) ∧
      tr.count Effect.focusFallback ≤ 1 ∧
      ((countingClient.iconified = true ∧ some 7 = some countingClient.id) →
        tr.count Effect.focusFallback = 1 ∧
        ∃ rest, tr = Effect.focusFallback :: rest ∧
          Effect.focusFallback ∉ rest)) :=
  ⟨by decide, by decide,
    (focus_fallback_iff (some 7) countingClient).1 (fun _ => by decide)⟩

/-- The handler preserves `unmapIgnore >= 0` on the runs in which the focus
test can be evaluated (`focus.Current()` answers with a client whenever this
client is iconified): for a client with `unmapIgnore >= 0` it returns a
client with `unmapIgnore >= 0`; a positive counter is decremented by exactly
one, nothing else changes and `unmanage` is not called; a zero counter
leaves the client record unchanged and `unmanage` is called, once. -/
theorem unmapIgnore_nonneg_preserved (cur : Option Nat) (c : client H NH R)
    (hnn : 0 ≤ c.unmapIgnore) (hcur : c.iconified = true → cur ≠ none) :
    ∃ c1 tr, cbUnmapNotify cur c = some (c1, tr) ∧
      0 ≤ c1.unmapIgnore ∧
      (c.unmapIgnore > 0 →
        c1 = { c with unmapIgnore := c.unmapIgnore - 1 } ∧
        c1.unmapIgnore = c.unmapIgnore - 1 ∧ Effect.unmanage ∉ tr) ∧
      (c.unmapIgnore = 0 → c1 = c ∧ tr.count Effect.unmanage = 1) := by
  refine ⟨_, _, cbUnmapNotify_eq cur c hcur, ?_, ?_, ?_⟩
  · by_cases hp : c.unmapIgnore > 0
    · simp only [hp, if_true]
      omega
    · simp only [hp, if_false]
      exact hnn
  · intro hp
    by_cases hcond : c.iconified = true ∧ cur = some c.id <;> simp [hp, hcond]
  · intro h0
    have hp : ¬ c.unmapIgnore > 0 := by omega
    by_cases hcond : c.iconified = true ∧ cur = some c.id <;> simp [hp, hcond]

/-- The client with counter 2 is left with counter 1 and is not unmanaged. -/
theorem unmapIgnore_nonneg_preserved_witness :
    (0 : Int) ≤ countingClient.unmapIgnore ∧
    cbUnmapNotify (some 1) countingClient
      = some ({ countingClient with unmapIgnore := 1 }, []) ∧
    ∃ c1 tr, cbUnmapNotify (some 1) countingClient = some (c1, tr) ∧
      0 ≤ c1.unmapIgnore ∧
      (countingClient.unmapIgnore > 0 →
        c1 = { countingClient with
                unmapIgnore := countingClient.unmapIgnore - 1 } ∧
        c1.unmapIgnore = countingClient.unmapIgnore - 1 ∧
        Effect.unmanage ∉ tr) ∧
      (countingClient.unmapIgnore = 0 →
        c1 = countingClient ∧ tr.count Effect.unmanage = 1) :=
  ⟨by decide, by decide,
    unmapIgnore_nonneg_preserved (some 1) countingClient (by decide)
      (fun _ => by decide)⟩

/-- Claim C15 fails on the code for an iconified client while
`focus.Current()` is nil.  The client with counter 2 and the sample client
with counter 0 are iconified and have `unmapIgnore >= 0`; on an
`UnmapNotify` the handler faults at the focus test, so the positive counter
is not decremented and at counter 0 `unmanage` is not called.  With another
client focused the handler does both. -/
theorem unmapIgnore_nonneg_fault :
    (0 : Int) ≤ countingClient.unmapIgnore ∧
    countingClient.iconified = true ∧
    cbUnmapNotify none countingClient = none ∧
    (0 : Int) ≤ sampleClient.unmapIgnore ∧
    sampleClient.iconified = true ∧
    cbUnmapNotify none sampleClient = none ∧
    cbUnmapNotify (some 1) countingClient
      = some ({ countingClient with unmapIgnore := 1 }, []) ∧
    cbUnmapNotify (some 1) sampleClient
      = some (sampleClient, [Effect.unmanage]) := by
  decide

/-- The handler has no case for a negative counter: on the runs in which
the focus test can be evaluated, a client whose `unmapIgnore` is negative is
returned unchanged (the counter is not decremented) and the trace ends with
the one call of `unmanage`, as for `unmapIgnore = 0`. -/
theorem negative_unmapIgnore_unmanages (cur : Option Nat) (c : client H NH R)
    (hneg : c.unmapIgnore < 0) (hcur : c.iconified = true → cur ≠ none) :
    ∃ tr, cbUnmapNotify cur c = some (c, tr) ∧
      tr.count Effect.unmanage = 1 ∧
      tr.getLast? = some Effect.unmanage := by
  have hp : ¬ c.unmapIgnore > 0 := by omega
  refine ⟨(if c.iconified = true ∧ cur = some c.id then
      [Effect.focusFallback] else []) ++ [Effect.unmanage], ?_, ?_, ?_⟩
  · rw [cbUnmapNotify_eq cur c hcur]
    simp only [hp, if_false]
  · by_cases hcond : c.iconified = true ∧ cur = some c.id <;> simp [hcond]
  · by_cases hcond : c.iconified = true ∧ cur = some c.id <;> simp [hcond]

/-- The client with counter -1 is unmanaged. -/
theorem negative_unmapIgnore_unmanages_witness :
    negativeClient.unmapIgnore < 0 ∧
    ∃ tr, cbUnmapNotify (some 1) negativeClient = some (negativeClient, tr) ∧
      tr.count Effect.unmanage = 1 ∧
      tr.getLast? = some Effect.unmanage :=
  ⟨by decide,
    negative_unmapIgnore_unmanages (some 1) negativeClient (by decide)
      (fun h => by simp [negativeClient] at h)⟩

/-- Claim C19 fails on the code: for the sample client, which is iconified,
with `focus.Current()` nil, the handler faults at the focus test; it returns
no client and no trace, and neither decrements nor unmanages. -/
theorem unmap_without_focus_faults :
    sampleClient.iconified = true ∧
    iconifiedAndFocused none sampleClient = none ∧
    cbUnmapNotify none sampleClient = none := by
  decide

/-! ## Focus handlers and unrecognised codes -/

/-- Claim C13.  For every focus-in event the client is marked focused, by
one call of `Focused`, if and only if `ignoreFocus` is false on its mode and
detail, and otherwise the handler makes no call; the same holds for
focus-out and `Unfocused`.  Both handlers return the client record
unchanged (so `unmapIgnore` is unchanged) and call neither `LayoutMROpt` nor
`unmanage`. -/
theorem focus_handlers (mode detail : Nat) (c : client H NH R) :
    (handleFocusIn mode detail c).1 = c ∧
    (handleFocusOut mode detail c).1 = c ∧
    ((handleFocusIn mode detail c).2.count Effect.focused = 1
      ↔ ignoreFocus mode detail = false) ∧
    ((handleFocusOut mode detail c).2.count Effect.unfocused = 1
      ↔ ignoreFocus mode detail = false) ∧
    (ignoreFocus mode detail = false →
      (handleFocusIn mode detail c).2 = [Effect.focused] ∧
      (handleFocusOut mode detail c).2 = [Effect.unfocused]) ∧
    (ignoreFocus mode detail = true →
      (handleFocusIn mode detail c).2 = [] ∧
      (handleFocusOut mode detail c).2 = []) ∧
    countLayouts (handleFocusIn mode detail c).2 = 0 ∧
    countLayouts (handleFocusOut mode detail c).2 = 0 ∧
    Effect.unmanage ∉ (handleFocusIn mode detail c).2 ∧
    Effect.unmanage ∉ (handleFocusOut mode detail c).2 := by
  unfold handleFocusIn handleFocusOut
  cases hig : ignoreFocus mode detail <;> simp [countLayouts]

/-- A mode byte outside the map `modes` indexes to the empty string. -/
theorem mapIndex_modes_of_not_mem (m : Nat) (hm : m ∉ protocolModes) :
    mapIndex modes m = "" := by
  simp only [protocolModes, NotifyModeNormal, NotifyModeGrab, NotifyModeUngrab,
    NotifyModeWhileGrabbed, List.mem_cons, List.mem_singleton,
    List.not_mem_nil, or_false, not_or] at hm
  obtain ⟨h0, h1, h2, h3⟩ := hm
  simp [mapIndex, modes, List.lookup, NotifyModeNormal, NotifyModeGrab,
    NotifyModeUngrab, NotifyModeWhileGrabbed, beq_false_of_ne h0,
    beq_false_of_ne h1, beq_false_of_ne h2, beq_false_of_ne h3]

/-- A detail byte outside the map `details` indexes to the empty string. -/
theorem mapIndex_details_of_not_mem (d : Nat) (hd : d ∉ protocolDetails) :
    mapIndex details d = "" := by
  simp only [protocolDetails, NotifyDetailAncestor, NotifyDetailVirtual,
    NotifyDetailInferior, NotifyDetailNonlinear, NotifyDetailNonlinearVirtual,
    NotifyDetailPointer, NotifyDetailPointerRoot, NotifyDetailNone,
    List.mem_cons, List.mem_singleton, List.not_mem_nil, or_false,
    not_or] at hd
  obtain ⟨h0, h1, h2, h3, h4, h5, h6, h7⟩ := hd
  simp [mapIndex, details, List.lookup, NotifyDetailAncestor,
    NotifyDetailVirtual, NotifyDetailInferior, NotifyDetailNonlinear,
    NotifyDetailNonlinearVirtual, NotifyDetailPointer, NotifyDetailPointerRoot,
    NotifyDetailNone, beq_false_of_ne h0, beq_false_of_ne h1,
    beq_false_of_ne h2, beq_false_of_ne h3, beq_false_of_ne h4,
    beq_false_of_ne h5, beq_false_of_ne h6, beq_false_of_ne h7]

/-- With an unrecognised mode, `ignoreFocus` and `ignoreRootFocus` depend on
the detail alone. -/
theorem ignore_of_unknown_mode (m d : Nat) (hm : m ∉ protocolModes) :
    ignoreFocus m d = ignoreFocus NotifyModeNormal d ∧
    ignoreRootFocus m d = ignoreRootFocus NotifyModeNormal d := by
  have hn : mapIndex modes NotifyModeNormal = "NotifyNormal" := by decide
  simp [ignoreFocus, ignoreRootFocus, mapIndex_modes_of_not_mem m hm, hn]

/-- With an unrecognised detail, `ignoreFocus` and `ignoreRootFocus` depend
on the mode alone. -/
theorem ignore_of_unknown_detail (m d : Nat) (hd : d ∉ protocolDetails) :
    ignoreFocus m d = ignoreFocus m NotifyDetailVirtual ∧
    ignoreRootFocus m d = ignoreRootFocus m NotifyDetailPointerRoot := by
  have hv : mapIndex details NotifyDetailVirtual = "NotifyVirtual" := by decide
  have hr : mapIndex details NotifyDetailPointerRoot = "NotifyPointerRoot" := by
    decide
  simp [ignoreFocus, ignoreRootFocus, mapIndex_details_of_not_mem d hd, hv, hr]

/-- With the mode Normal, `ignoreFocus` is true exactly on its ignored
details and `ignoreRootFocus` exactly on its own, for every detail byte. -/
theorem ignore_normal_iff (d : Nat) :
    (ignoreFocus NotifyModeNormal d = true ↔ d ∈ focusIgnoredDetails) ∧
    (ignoreRootFocus NotifyModeNormal d = true ↔ d ∈ rootIgnoredDetails) := by
  by_cases hd : d ∈ protocolDetails
  · have hall : ∀ x ∈ protocolDetails,
        (ignoreFocus NotifyModeNormal x = true ↔ x ∈ focusIgnoredDetails) ∧
        (ignoreRootFocus NotifyModeNormal x = true ↔ x ∈ rootIgnoredDetails) := by
      decide
    exact hall d hd
  · have hsub1 : ∀ x ∈ focusIgnoredDetails, x ∈ protocolDetails := by decide
    have hsub2 : ∀ x ∈ rootIgnoredDetails, x ∈ protocolDetails := by decide
    have h1 : ignoreFocus NotifyModeNormal NotifyDetailVirtual = false := by
      decide
    have h2 : ignoreRootFocus NotifyModeNormal NotifyDetailPointerRoot = false := by
      decide
    obtain ⟨e1, e2⟩ := ignore_of_unknown_detail NotifyModeNormal d hd
    rw [e1, e2, h1, h2]
    exact ⟨⟨fun h => absurd h (by decide), fun h => absurd (hsub1 d h) hd⟩,
      ⟨fun h => absurd h (by decide), fun h => absurd (hsub2 d h) hd⟩⟩

/-- With a detail that neither classifier ignores, each classifier is true
exactly on the modes Grab and Ungrab, for every mode byte. -/
theorem ignore_accepted_detail_iff (m : Nat) :
    (ignoreFocus m NotifyDetailVirtual = true
      ↔ (m = NotifyModeGrab ∨ m = NotifyModeUngrab)) ∧
    (ignoreRootFocus m NotifyDetailPointerRoot = true
      ↔ (m = NotifyModeGrab ∨ m = NotifyModeUngrab)) := by
  by_cases hm : m ∈ protocolModes
  · have hall : ∀ x ∈ protocolModes,
        (ignoreFocus x NotifyDetailVirtual = true
          ↔ (x = NotifyModeGrab ∨ x = NotifyModeUngrab)) ∧
        (ignoreRootFocus x NotifyDetailPointerRoot = true
          ↔ (x = NotifyModeGrab ∨ x = NotifyModeUngrab)) := by
      decide
    exact hall m hm
  · have hg : NotifyModeGrab ∈ protocolModes := by decide
    have hu : NotifyModeUngrab ∈ protocolModes := by decide
    have h1 : ignoreFocus NotifyModeNormal NotifyDetailVirtual = false := by
      decide
    have h2 : ignoreRootFocus NotifyModeNormal NotifyDetailPointerRoot = false := by
      decide
    have e1 := (ignore_of_unknown_mode m NotifyDetailVirtual hm).1
    have e2 := (ignore_of_unknown_mode m NotifyDetailPointerRoot hm).2
    rw [e1, e2, h1, h2]
    have hne : ¬ (m = NotifyModeGrab ∨ m = NotifyModeUngrab) := by
      rintro (h | h)
      · exact hm (h ▸ hg)
      · exact hm (h ▸ hu)
    exact ⟨⟨fun h => absurd h (by decide), fun h => absurd h hne⟩,
      ⟨fun h => absurd h (by decide), fun h => absurd h hne⟩⟩

/-- Claim C14.  For a mode byte and a detail byte that are both outside the
enumerated codes, `ignoreFocus` and `ignoreRootFocus` return false.  More
generally, with an unrecognised mode each classifier ignores exactly the
details of its own ignored set, and with an unrecognised detail each
classifier ignores exactly the modes Grab and Ungrab. -/
theorem unrecognised_codes (m d : Nat) :
    (m ∉ protocolModes → d ∉ protocolDetails →
      ignoreFocus m d = false ∧ ignoreRootFocus m d = false) ∧
    (m ∉ protocolModes →
      (ignoreFocus m d = true ↔ d ∈ focusIgnoredDetails) ∧
      (ignoreRootFocus m d = true ↔ d ∈ rootIgnoredDetails)) ∧
    (d ∉ protocolDetails →
      (ignoreFocus m d = true
        ↔ (m = NotifyModeGrab ∨ m = NotifyModeUngrab)) ∧
      (ignoreRootFocus m d = true
        ↔ (m = NotifyModeGrab ∨ m = NotifyModeUngrab))) := by
  refine ⟨fun hm hd => ?_, fun hm => ?_, fun hd => ?_⟩
  · obtain ⟨e1, e2⟩ := ignore_of_unknown_mode m d hm
    obtain ⟨f1, f2⟩ := ignore_of_unknown_detail NotifyModeNormal d hd
    rw [e1, e2, f1, f2]
    exact ⟨by decide, by decide⟩
  · obtain ⟨e1, e2⟩ := ignore_of_unknown_mode m d hm
    rw [e1, e2]
    exact ignore_normal_iff d
  · obtain ⟨e1, e2⟩ := ignore_of_unknown_detail m d hd
    rw [e1, e2]
    exact ignore_accepted_detail_iff m

/-- The bytes 200 (mode) and 100 (detail) are outside the enumerated codes
and both classifiers return false on them; with detail Ancestor the unknown
mode 200 is ignored by both. -/
theorem unrecognised_codes_witness :
    (200 ∉ protocolModes ∧ 100 ∉ protocolDetails ∧
      ignoreFocus 200 100 = false ∧ ignoreRootFocus 200 100 = false) ∧
    ignoreFocus 200 NotifyDetailAncestor = true ∧
    ignoreRootFocus 200 NotifyDetailAncestor = true :=
  ⟨⟨by decide, by decide,
      (unrecognised_codes 200 100).1 (by decide) (by decide)⟩,
    (((unrecognised_codes 200 NotifyDetailAncestor).2.1 (by decide)).1).2
      (by decide),
    (((unrecognised_codes 200 NotifyDetailAncestor).2.1 (by decide)).2).2
      (by decide)⟩

/-- Claim C20.  On the 4 protocol modes and 8 protocol details at least one
of `ignoreFocus` and `ignoreRootFocus` is true, so the two classifiers never
both accept a recognised notification; on the pair (mode 0, detail 8), whose
detail is outside the enumerated codes, and on the pair (mode 4, detail 8),
whose two codes are outside, both classifiers return false. -/
theorem classifiers_never_both_accept :
    (∀ m ∈ protocolModes, ∀ d ∈ protocolDetails,
      ignoreFocus m d = true ∨ ignoreRootFocus m d = true) ∧
    (8 ∉ protocolDetails ∧
      ignoreFocus 0 8 = false ∧ ignoreRootFocus 0 8 = false) ∧
    (4 ∉ protocolModes ∧
      ignoreFocus 4 8 = false ∧ ignoreRootFocus 4 8 = false) := by
  decide

/-! ## Round-trips and frame of the property handler -/

/-- The switch of the property handler makes at most one round-trip. -/
theorem countRoundTrips_propertySwitch (q : Collab H NH R) (name : String)
    (c : client H NH R) :
    countRoundTrips (propertySwitch q name c).2 ≤ 1 := by
  unfold propertySwitch
  split_ifs
  · simp [countRoundTrips, isRoundTrip]
  · simp [countRoundTrips, isRoundTrip]
  · cases q.wmHintsGet c.id <;> simp [countRoundTrips, isRoundTrip]
  · cases q.wmNormalHintsGet c.id <;> simp [countRoundTrips, isRoundTrip]
  · cases q.wmTransientForGet c.id with
    | none => simp [countRoundTrips, isRoundTrip]
    | some w =>
      dsimp only
      cases q.findManagedClient w <;> simp [countRoundTrips, isRoundTrip]
  · cases q.wmUserTimeGet c.id <;> simp [countRoundTrips, isRoundTrip]
  · simp [countRoundTrips, isRoundTrip]
  · simp [countRoundTrips, isRoundTrip]

/-- Claim C17 as stated fails: on a `WM_HINTS` change the property handler
makes two round-trips, the name lookup and the hints re-query. -/
theorem round_trips_counterexample :
    (cbPropertyNotify sampleCollab 35 sampleClient).2
      = [Effect.atomName 35, Effect.wmHintsGet 7] ∧
    countRoundTrips (cbPropertyNotify sampleCollab 35 sampleClient).2 = 2 := by
  decide

/-- Claim C17, amended.  The destroy, unmap, focus-in and focus-out handlers
make no protocol round-trip, the configure-request handler makes at most one
(the synthetic send), and the property-change handler makes the name lookup
and at most one re-query, hence at least one and at most two. -/
theorem round_trips_bound (q : Collab H NH R)
    (ctf : Frame → Int → Int → Int → Int → Int × Int × Int × Int)
    (ev : ConfigureRequestEvent) (cur : Option Nat) (atom mode detail : Nat)
    (c : client H NH R) :
    countRoundTrips (cbDestroyNotify c).2 = 0 ∧
    (∀ r ∈ cbUnmapNotify cur c, countRoundTrips r.2 = 0) ∧
    countRoundTrips (cbConfigureRequest ctf ev c).2 ≤ 1 ∧
    countRoundTrips (handleFocusIn mode detail c).2 = 0 ∧
    countRoundTrips (handleFocusOut mode detail c).2 = 0 ∧
    1 ≤ countRoundTrips (cbPropertyNotify q atom c).2 ∧
    countRoundTrips (cbPropertyNotify q atom c).2 ≤ 2 := by
  refine ⟨rfl, ?_, ?_, ?_, ?_, ?_, ?_⟩
  · intro r hr
    by_cases hcur : c.iconified = true → cur ≠ none
    · rw [cbUnmapNotify_eq cur c hcur] at hr
      simp only [Option.mem_def, Option.some.injEq] at hr
      subst hr
      by_cases hcond : c.iconified = true ∧ cur = some c.id <;>
        by_cases hp : c.unmapIgnore > 0 <;>
        simp [hcond, hp, countRoundTrips, isRoundTrip]
    · have hi : c.iconified = true := by
        by_contra h
        exact hcur (fun h2 => absurd h2 h)
      have hn : cur = none := by
        by_contra h
        exact hcur (fun _ => h)
      subst hn
      rw [cbUnmapNotify_fault c hi] at hr
      simp at hr
  · by_cases hc : (c.frame.moving || c.frame.resizing || c.maximized) = true
    · rw [cbConfigureRequest_of_busy ctf ev c hc]
      simp [sendConfigureNotify, countRoundTrips, isRoundTrip]
    · rw [cbConfigureRequest_of_idle ctf ev c (by simpa using hc)]
      simp [countRoundTrips, isRoundTrip]
  · unfold handleFocusIn
    cases ignoreFocus mode detail <;> simp [countRoundTrips, isRoundTrip]
  · unfold handleFocusOut
    cases ignoreFocus mode detail <;> simp [countRoundTrips, isRoundTrip]
  · simp [cbPropertyNotify, countRoundTrips, isRoundTrip]
  · have h := countRoundTrips_propertySwitch q (q.atomName atom).1 c
    simp only [cbPropertyNotify, countRoundTrips, List.filter_cons, isRoundTrip,
      if_true, List.length_cons] at h ⊢
    omega

/-- The switch leaves every field other than `hints`, `nhints`,
`transientFor` and `time` as it was. -/
theorem propertySwitch_frame (q : Collab H NH R) (name : String)
    (c : client H NH R) :
    (propertySwitch q name c).1
      = { c with
          hints := (propertySwitch q name c).1.hints
          nhints := (propertySwitch q name c).1.nhints
          transientFor := (propertySwitch q name c).1.transientFor
          time := (propertySwitch q name c).1.time } := by
  unfold propertySwitch
  split_ifs
  · rfl
  · rfl
  · cases q.wmHintsGet c.id <;> rfl
  · cases q.wmNormalHintsGet c.id <;> rfl
  · cases q.wmTransientForGet c.id with
    | none => rfl
    | some w =>
      dsimp only
      cases q.findManagedClient w <;> rfl
  · cases q.wmUserTimeGet c.id <;> rfl
  · rfl
  · rfl

/-- The switch on `_NET_WM_ICON` or `_NET_WM_STRUT_PARTIAL` does nothing. -/
theorem propertySwitch_reserved (q : Collab H NH R) (name : String)
    (c : client H NH R)
    (h : name = "_NET_WM_ICON" ∨ name = "_NET_WM_STRUT_PARTIAL") :
    propertySwitch q name c = (c, []) := by
  rcases h with h | h <;> subst h <;> simp [propertySwitch]

/-- Claim C18.  A property-change notification returns a client record in
which `id`, `frame`, the window geometry, `unmapIgnore`, `iconified` and
`maximized` are as before, whatever the property.  For `WM_HINTS` only
`hints` may differ, for `WM_NORMAL_HINTS` only `nhints`, for
`WM_TRANSIENT_FOR` only `transientFor`, for `_NET_WM_USER_TIME` only `time`;
for `_NET_WM_ICON` and `_NET_WM_STRUT_PARTIAL` the record is unchanged and
the name lookup is the only call. -/
theorem property_frame (q : Collab H NH R) (atom : Nat) (c : client H NH R) :
    ((cbPropertyNotify q atom c).1.unmapIgnore = c.unmapIgnore ∧
      (cbPropertyNotify q atom c).1.iconified = c.iconified ∧
      (cbPropertyNotify q atom c).1.maximized = c.maximized ∧
      (cbPropertyNotify q atom c).1.id = c.id ∧
      (cbPropertyNotify q atom c).1.frame = c.frame ∧
      (cbPropertyNotify q atom c).1.winGeom = c.winGeom) ∧
    ((q.atomName atom).1 = "WM_HINTS" →
      (cbPropertyNotify q atom c).1
        = { c with hints := (cbPropertyNotify q atom c).1.hints }) ∧
    ((q.atomName atom).1 = "WM_NORMAL_HINTS" →
      (cbPropertyNotify q atom c).1
        = { c with nhints := (cbPropertyNotify q atom c).1.nhints }) ∧
    ((q.atomName atom).1 = "WM_TRANSIENT_FOR" →
      (cbPropertyNotify q atom c).1
        = { c with
            transientFor := (cbPropertyNotify q atom c).1.transientFor }) ∧
    ((q.atomName atom).1 = "_NET_WM_USER_TIME" →
      (cbPropertyNotify q atom c).1
        = { c with time := (cbPropertyNotify q atom c).1.time }) ∧
    (((q.atomName atom).1 = "_NET_WM_ICON" ∨
        (q.atomName atom).1 = "_NET_WM_STRUT_PARTIAL") →
      cbPropertyNotify q atom c = (c, [Effect.atomName atom])) := by
  refine ⟨?_, fun hn => ?_, fun hn => ?_, fun hn => ?_, fun hn => ?_,
    fun hn => ?_⟩
  · have h := propertySwitch_frame q (q.atomName atom).1 c
    simp only [cbPropertyNotify]
    rw [h]
    exact ⟨rfl, rfl, rfl, rfl, rfl, rfl⟩
  · simp only [cbPropertyNotify, hn, propertySwitch_hints]
    cases q.wmHintsGet c.id <;> rfl
  · simp only [cbPropertyNotify, hn, propertySwitch_nhints]
    cases q.wmNormalHintsGet c.id <;> rfl
  · simp only [cbPropertyNotify, hn, propertySwitch_transient]
    cases q.wmTransientForGet c.id with
    | none => rfl
    | some w =>
      dsimp only
      cases q.findManagedClient w <;> rfl
  · simp only [cbPropertyNotify, hn, propertySwitch_time]
    cases q.wmUserTimeGet c.id <;> rfl
  · simp only [cbPropertyNotify, propertySwitch_reserved q _ c hn]

end Wingo
